import Mathlib

set_option maxRecDepth 16000

/-!
Verification development for the cJTAG VPI bridge.

We shallowly embed the host-bridge code of the repository:
  * the OpenOCD-style frame bridge (`src/vpi/jtag_vpi.cpp`): the packed
    `vpi_cmd` frame, the command codes, and `JtagVpi::process_commands`
    together with `check_connection` / `init_server` and the testbench
    main loop of `src/tb/tb_cjtag.cpp`;
  * the legacy byte-protocol bridge (`src/src/jtag_vpi.cpp`): its
    `CMD_RESET` handler;
  * the activation-sequence senders of the two test harnesses
    (`src/tb/test_cjtag.cpp` and `src/tb/test_idcode.cpp`).

The simulated DUT (`Vtop`) is external to the bridge code: its outputs
`tck_o` / `tmsc_o` are modelled as an environment value sampled at each
call, and the signal assignments the bridge performs on the DUT's inputs
are recorded as an explicit list of writes.
-/

/-- Command codes of the frame protocol (`#define CMD_*` in
`src/vpi/jtag_vpi.cpp`). -/
def CMD_RESET : Nat := 0

def CMD_TMS_SEQ : Nat := 1

def CMD_SCAN_CHAIN : Nat := 2

def CMD_SCAN_CHAIN_FLIP_TMS : Nat := 3

def CMD_STOP_SIMU : Nat := 4

def CMD_OSCAN1_RAW : Nat := 5

/-- `XFERT_MAX_SIZE`: size of each transfer buffer in bytes. -/
def XFERT_MAX_SIZE : Nat := 512

/-- `JtagVpi::MAX_WAIT_TICKS`: maximum polling ticks to wait for a
`tck_o` edge before answering an OSCAN1_RAW command anyway. -/
def MAX_WAIT_TICKS : Nat := 100

/-- The packed `struct vpi_cmd` of `src/vpi/jtag_vpi.cpp`.  Buffers are
byte lists (512 bytes in every real frame); `length` and `nb_bits` are C
`int`s. -/
structure VpiCmd where
  cmd : Nat
  buffer_out : List Nat
  buffer_in : List Nat
  length : Int
  nb_bits : Int
deriving DecidableEq, Repr

/-- Field layout of the packed `struct vpi_cmd` (name, byte size), in
declaration order: `int cmd; unsigned char buffer_out[512];
unsigned char buffer_in[512]; int length; int nb_bits;` under
`#pragma pack(1)`. -/
def vpi_cmd_field_sizes : List (String × Nat) :=
  [("cmd", 4), ("buffer_out", XFERT_MAX_SIZE), ("buffer_in", XFERT_MAX_SIZE),
   ("length", 4), ("nb_bits", 4)]

/-- Total packed size of a frame on the wire. -/
def vpi_cmd_packed_size : Nat := (vpi_cmd_field_sizes.map Prod.snd).sum

/-- Outputs of the simulated device (`Vtop`) visible to the bridge at one
polling call. -/
structure TopOuts where
  tck_o : Bool
  tmsc_o : Bool
deriving DecidableEq, Repr

/-- One assignment the bridge performs on a DUT input (`top->tckc_i = v`,
`top->tmsc_i = v`, `top->ntrst_i = v`), in program order. -/
inductive SigWrite where
  | setTckc : Bool → SigWrite
  | setTmsc : Bool → SigWrite
  | setNtrst : Bool → SigWrite
deriving DecidableEq, Repr

/-- What the socket yields during one `process_commands` call: no data
pending (`select` returned 0), end-of-stream (`recv` returned 0), a hard
`recv` error, a soft `recv` error (EAGAIN / EWOULDBLOCK), or a complete
command frame. -/
inductive SockEvent where
  | noData
  | recvEOF
  | recvErrHard
  | recvErrAgain
  | frame : VpiCmd → SockEvent
deriving DecidableEq, Repr

/-- The mutable state of `JtagVpi` together with the bridge-driven DUT
input signals.  `serverOpen` models `server_fd >= 0`. -/
structure VpiState where
  serverOpen : Bool
  connected : Bool
  waiting_for_tck_edge : Bool
  tck_initial_state : Bool
  pending_response : VpiCmd
  wait_counter : Nat
  tckc_i : Bool
  tmsc_i : Bool
deriving DecidableEq, Repr

/-- Observable effects of one `process_commands` call: frames sent to the
client, DUT input assignments performed, the boolean return value
(`false` requests simulation stop), whether the client socket was
closed, whether a `recv` was attempted, and whether the unknown-command
diagnostic was printed. -/
structure StepOut where
  sent : List VpiCmd
  writes : List SigWrite
  cont : Bool
  closedClient : Bool
  readSock : Bool
  unknownCmd : Bool
deriving DecidableEq, Repr

/-- A call with no external effect that lets the simulation continue. -/
def quietOut : StepOut :=
  { sent := [], writes := [], cont := true, closedClient := false,
    readSock := false, unknownCmd := false }

/-- `b & 0x01` for a one-bit DUT output read into a byte. -/
def byteOf (b : Bool) : Nat := if b then 1 else 0

/-- The response frame the waiting branch sends: the saved
`pending_response` with `buffer_in[0]` overwritten by the current
`tmsc_o & 0x01`. -/
def respOf (s : VpiState) (env : TopOuts) : VpiCmd :=
  { s.pending_response with
    buffer_in := s.pending_response.buffer_in.set 0 (byteOf env.tmsc_o) }

/-- TMS bit `i` of a packed buffer:
`(buffer_out[i / 8] >> (i % 8)) & 0x01`. -/
def tmsBit (buf : List Nat) (i : Nat) : Bool :=
  (buf.getD (i / 8) 0).testBit (i % 8)

/-- DUT input assignments of the `CMD_TMS_SEQ` loop over `n` bits: for
each bit, set TMSC to the bit, raise TCKC, lower TCKC. -/
def tms_seq_writes (buf : List Nat) : Nat → List SigWrite
  | 0 => []
  | k + 1 =>
      tms_seq_writes buf k ++
        [SigWrite.setTmsc (tmsBit buf k), SigWrite.setTckc true,
         SigWrite.setTckc false]

/-- `JtagVpi::process_commands` of `src/vpi/jtag_vpi.cpp`, one call:
given the current state, the DUT outputs at this call, and what the
socket yields, produce the next state and the observable effects. -/
def process_commands (s : VpiState) (env : TopOuts) (e : SockEvent) :
    VpiState × StepOut :=
  if s.connected = false then (s, quietOut)
  else if s.waiting_for_tck_edge = true then
    -- waiting for a tck_o edge from a previous OSCAN1_RAW command
    if env.tck_o ≠ s.tck_initial_state then
      ({ s with waiting_for_tck_edge := false, wait_counter := 0,
                pending_response := respOf s env },
       { quietOut with sent := [respOf s env] })
    else if MAX_WAIT_TICKS ≤ s.wait_counter + 1 then
      ({ s with waiting_for_tck_edge := false, wait_counter := 0,
                pending_response := respOf s env },
       { quietOut with sent := [respOf s env] })
    else
      ({ s with wait_counter := s.wait_counter + 1 }, quietOut)
  else
    match e with
    | SockEvent.noData => (s, quietOut)
    | SockEvent.recvErrAgain => (s, { quietOut with readSock := true })
    | SockEvent.recvEOF =>
        ({ s with connected := false },
         { quietOut with closedClient := true, readSock := true })
    | SockEvent.recvErrHard =>
        ({ s with connected := false },
         { quietOut with closedClient := true, readSock := true })
    | SockEvent.frame c =>
        if c.cmd = CMD_RESET then
          -- cJTAG mode: acknowledge without touching any DUT input
          (s, { quietOut with
                  sent := [{ c with buffer_in := List.replicate XFERT_MAX_SIZE 0 }],
                  readSock := true })
        else if c.cmd = CMD_TMS_SEQ then
          let n := c.nb_bits.toNat
          let s1 :=
            if 0 < n then
              { s with tckc_i := false, tmsc_i := tmsBit c.buffer_out (n - 1) }
            else s
          (s1,
           { quietOut with
               sent := [{ c with
                 buffer_in := (List.replicate XFERT_MAX_SIZE 0).set 0
                   (byteOf env.tmsc_o) }],
               writes := tms_seq_writes c.buffer_out n,
               readSock := true })
        else if c.cmd = CMD_SCAN_CHAIN ∨ c.cmd = CMD_SCAN_CHAIN_FLIP_TMS then
          (s, { quietOut with
                  sent := [{ c with buffer_in := List.replicate XFERT_MAX_SIZE 255 }],
                  readSock := true })
        else if c.cmd = CMD_STOP_SIMU then
          (s, { quietOut with cont := false, readSock := true })
        else if c.cmd = CMD_OSCAN1_RAW then
          let b := c.buffer_out.getD 0 0
          ({ s with
               tckc_i := b.testBit 0, tmsc_i := b.testBit 1,
               tck_initial_state := env.tck_o,
               waiting_for_tck_edge := true, wait_counter := 0,
               pending_response := c },
           { quietOut with
               writes := [SigWrite.setTckc (b.testBit 0),
                          SigWrite.setTmsc (b.testBit 1)],
               readSock := true })
        else
          (s, { quietOut with
                  sent := [{ c with buffer_in := List.replicate XFERT_MAX_SIZE 255 }],
                  readSock := true, unknownCmd := true })

/-- `JtagVpi::check_connection`: if not connected and the listening
socket is open and an accept is ready, accept the client.  Returns the
new state and the boolean result. -/
def check_connection (s : VpiState) (acceptReady : Bool) : VpiState × Bool :=
  if s.connected = true then (s, true)
  else if s.serverOpen = false then (s, false)
  else if acceptReady = true then ({ s with connected := true }, true)
  else (s, false)

/-- `JtagVpi::init_server`: succeeds only when socket creation, bind and
listen all succeed; on any failure the socket is closed and `false`
returned. -/
def init_server (socketOk bindOk listenOk : Bool) : Bool :=
  socketOk && bindOk && listenOk

/-- An all-zero frame (the constructor `memset`s `pending_response`). -/
def emptyCmd : VpiCmd :=
  { cmd := 0, buffer_out := List.replicate XFERT_MAX_SIZE 0,
    buffer_in := List.replicate XFERT_MAX_SIZE 0, length := 0, nb_bits := 0 }

/-- `jtag_vpi_init`: constructs the global `JtagVpi` and calls
`init_server`, discarding its boolean result — on failure the state
simply keeps `server_fd = -1` (`serverOpen = false`). -/
def jtag_vpi_init (socketOk bindOk listenOk : Bool) : VpiState :=
  { serverOpen := init_server socketOk bindOk listenOk,
    connected := false, waiting_for_tck_edge := false,
    tck_initial_state := false, pending_response := emptyCmd,
    wait_counter := 0, tckc_i := false, tmsc_i := false }

/-- The literal `return 0;` at the end of `main` in
`src/tb/tb_cjtag.cpp`: the process exit code whenever the main loop
ends. -/
def tb_main_return : Nat := 0

/-- One `VPI_CHECK` occurrence of the testbench main loop: whether an
accept is ready, the DUT outputs, and what the socket yields. -/
structure SimEvent where
  acceptReady : Bool
  env : TopOuts
  sock : SockEvent
deriving DecidableEq, Repr

/-- The testbench main loop of `src/tb/tb_cjtag.cpp`, restricted to its
`VPI_CHECK` events (the clock phases do not touch bridge state): each
event runs `check_connection` then `process_commands`; a `false` return
sets `g_shutdown` and `main` returns 0.  `none` means the loop is still
running after the given events. -/
def sim_loop : VpiState → List SimEvent → Option Nat
  | _, [] => none
  | s, ev :: rest =>
      let s1 := (check_connection s ev.acceptReady).1
      let r := process_commands s1 ev.env ev.sock
      if r.2.cont = true then sim_loop r.1 rest else some tb_main_return

/-- Iterated waiting: the bridge state after `n` polling calls during
which the socket yields nothing, with DUT outputs `envs i` at call `i`. -/
def waitRun (s : VpiState) (envs : Nat → TopOuts) : Nat → VpiState
  | 0 => s
  | n + 1 => (process_commands (waitRun s envs n) (envs n) SockEvent.noData).1

/-- The full result of polling call `k` of a waiting run. -/
def stepAt (s : VpiState) (envs : Nat → TopOuts) (k : Nat) :
    VpiState × StepOut :=
  process_commands (waitRun s envs k) (envs k) SockEvent.noData

/-- The `for (int i = 0; i < 10; i++)` TCKC toggle burst of the legacy
bridge's `CMD_RESET` handler. -/
def tckc_toggle_burst : Nat → List SigWrite
  | 0 => []
  | n + 1 => SigWrite.setTckc false :: SigWrite.setTckc true ::
      tckc_toggle_burst n

/-- DUT input assignments of `CMD_RESET` in the legacy byte-protocol
bridge (`src/src/jtag_vpi.cpp`): drive `ntrst_i` low, toggle TCKC ten
times, release `ntrst_i`. -/
def legacy_reset_writes : List SigWrite :=
  SigWrite.setNtrst false ::
    (tckc_toggle_burst 10 ++ [SigWrite.setNtrst true])

/-- The single acknowledge byte the legacy `CMD_RESET` handler sends
after releasing the reset. -/
def legacy_reset_sent : List Nat := [0]

/-- `send_oac_sequence` of `src/tb/test_cjtag.cpp`: the TMSC values
clocked in, in on-wire order (`int bits[4] = {1, 1, 0, 1}`). -/
def TestCjtag.send_oac_sequence : List Bool := [true, true, false, true]

/-- `oac[4] = {0, 0, 1, 1}` of `src/tb/test_idcode.cpp`, on-wire order. -/
def TestIdcode.oac : List Bool := [false, false, true, true]

/-- `ec[4] = {0, 0, 0, 1}` of `src/tb/test_idcode.cpp`, on-wire order. -/
def TestIdcode.ec : List Bool := [false, false, false, true]

/-- `cp[i] = oac[i] ^ ec[i]` of `src/tb/test_idcode.cpp`. -/
def TestIdcode.cp : List Bool := List.zipWith Bool.xor TestIdcode.oac TestIdcode.ec

/-- `send_oac_sequence` of `src/tb/test_idcode.cpp`: the full 12-bit
OAC, EC, CP activation packet, in on-wire order. -/
def TestIdcode.send_oac_sequence : List Bool :=
  TestIdcode.oac ++ TestIdcode.ec ++ TestIdcode.cp

/-- Numeric value of a bit sequence read LSB-first (first on-wire bit is
bit 0). -/
def lsbFirstValue : List Bool → Nat
  | [] => 0
  | b :: t => (if b then 1 else 0) + 2 * lsbFirstValue t

/-! Concrete values used by witnesses and counterexamples. -/

/-- A connected, idle bridge state. -/
def wState : VpiState :=
  { serverOpen := true, connected := true, waiting_for_tck_edge := false,
    tck_initial_state := false, pending_response := emptyCmd,
    wait_counter := 0, tckc_i := false, tmsc_i := false }

/-- DUT outputs with `tck_o` low and `tmsc_o` high. -/
def wEnv : TopOuts := { tck_o := false, tmsc_o := true }

/-- A well-formed frame with the given command code and zeroed payload. -/
def wFrame (n : Nat) : VpiCmd := { emptyCmd with cmd := n }

/-! Helper lemmas about one `process_commands` call. -/

/-- A call on a disconnected bridge does nothing. -/
theorem step_not_connected (s : VpiState) (env : TopOuts) (e : SockEvent)
    (h : s.connected = false) : process_commands s env e = (s, quietOut) := by
  simp [process_commands, h]

/-- While a response is pending, the call does not depend on what the
socket could yield. -/
theorem step_waiting_indep (s : VpiState) (env : TopOuts) (e1 e2 : SockEvent)
    (hw : s.waiting_for_tck_edge = true) :
    process_commands s env e1 = process_commands s env e2 := by
  by_cases hc : s.connected = false
  · rw [step_not_connected s env e1 hc, step_not_connected s env e2 hc]
  · simp only [Bool.not_eq_false] at hc
    simp [process_commands, hc, hw]

/-- Waiting call on a `tck_o` edge: send the pending response. -/
theorem step_waiting_edge (s : VpiState) (env : TopOuts) (e : SockEvent)
    (hc : s.connected = true) (hw : s.waiting_for_tck_edge = true)
    (hne : env.tck_o ≠ s.tck_initial_state) :
    process_commands s env e =
      ({ s with waiting_for_tck_edge := false, wait_counter := 0,
                pending_response := respOf s env },
       { quietOut with sent := [respOf s env] }) := by
  simp [process_commands, hc, hw, hne]

/-- Waiting call hitting the tick limit: send the pending response. -/
theorem step_waiting_timeout (s : VpiState) (env : TopOuts) (e : SockEvent)
    (hc : s.connected = true) (hw : s.waiting_for_tck_edge = true)
    (heq : env.tck_o = s.tck_initial_state)
    (hbig : MAX_WAIT_TICKS ≤ s.wait_counter + 1) :
    process_commands s env e =
      ({ s with waiting_for_tck_edge := false, wait_counter := 0,
                pending_response := respOf s env },
       { quietOut with sent := [respOf s env] }) := by
  simp [process_commands, hc, hw, heq, hbig]

/-- Waiting call with no edge and ticks remaining: keep waiting. -/
theorem step_waiting_still (s : VpiState) (env : TopOuts) (e : SockEvent)
    (hc : s.connected = true) (hw : s.waiting_for_tck_edge = true)
    (heq : env.tck_o = s.tck_initial_state)
    (hsmall : s.wait_counter + 1 < MAX_WAIT_TICKS) :
    process_commands s env e =
      ({ s with wait_counter := s.wait_counter + 1 }, quietOut) := by
  have hnot : ¬ MAX_WAIT_TICKS ≤ s.wait_counter + 1 := by omega
  simp [process_commands, hc, hw, heq, hnot]

/-- The unknown-command diagnostic fires exactly on codes above 5. -/
theorem unknownCmd_step (s : VpiState) (env : TopOuts) (c : VpiCmd)
    (hc : s.connected = true) (hw : s.waiting_for_tck_edge = false) :
    ((process_commands s env (SockEvent.frame c)).2.unknownCmd = true ↔
      5 < c.cmd) := by
  rcases Nat.lt_or_ge 5 c.cmd with h5 | h5
  · have h0 : ¬ c.cmd = CMD_RESET := by simp [CMD_RESET]; omega
    have h1 : ¬ c.cmd = CMD_TMS_SEQ := by simp [CMD_TMS_SEQ]; omega
    have h23 : ¬ (c.cmd = CMD_SCAN_CHAIN ∨ c.cmd = CMD_SCAN_CHAIN_FLIP_TMS) := by
      simp [CMD_SCAN_CHAIN, CMD_SCAN_CHAIN_FLIP_TMS]; omega
    have h4 : ¬ c.cmd = CMD_STOP_SIMU := by simp [CMD_STOP_SIMU]; omega
    have h5n : ¬ c.cmd = CMD_OSCAN1_RAW := by simp [CMD_OSCAN1_RAW]; omega
    simp [process_commands, hc, hw, h0, h1, h23, h4, h5n, h5]
  · interval_cases hcc : c.cmd <;>
      simp [process_commands, hc, hw, hcc, quietOut, CMD_RESET, CMD_TMS_SEQ,
        CMD_SCAN_CHAIN, CMD_SCAN_CHAIN_FLIP_TMS, CMD_STOP_SIMU, CMD_OSCAN1_RAW]

/-- C3: every host frame has the fixed packed layout 4-byte cmd, 512-byte
buffer_out, 512-byte buffer_in, 4-byte length, 4-byte nb_bits (1036 bytes
total), and the recognized command codes are RESET=0, TMS_SEQ=1,
SCAN_CHAIN=2, SCAN_CHAIN_FLIP_TMS=3, STOP_SIMU=4, OSCAN1_RAW=5: exactly
the codes outside this set fall to the unknown-command branch. -/
theorem vpi_frame_layout_and_codes (s : VpiState) (env : TopOuts) (c : VpiCmd)
    (hc : s.connected = true) (hw : s.waiting_for_tck_edge = false) :
    vpi_cmd_packed_size = 1036 ∧
    vpi_cmd_field_sizes =
      [("cmd", 4), ("buffer_out", 512), ("buffer_in", 512), ("length", 4),
       ("nb_bits", 4)] ∧
    CMD_RESET = 0 ∧ CMD_TMS_SEQ = 1 ∧ CMD_SCAN_CHAIN = 2 ∧
    CMD_SCAN_CHAIN_FLIP_TMS = 3 ∧ CMD_STOP_SIMU = 4 ∧ CMD_OSCAN1_RAW = 5 ∧
    ((process_commands s env (SockEvent.frame c)).2.unknownCmd = true ↔
      5 < c.cmd) :=
  ⟨by decide, by decide, rfl, rfl, rfl, rfl, rfl, rfl,
   unknownCmd_step s env c hc hw⟩

/-- Witness for C3 at a concrete connected state and a concrete frame with
command code 9. -/
theorem vpi_frame_layout_and_codes_witness :
    wState.connected = true ∧ wState.waiting_for_tck_edge = false ∧
    (vpi_cmd_packed_size = 1036 ∧
     vpi_cmd_field_sizes =
       [("cmd", 4), ("buffer_out", 512), ("buffer_in", 512), ("length", 4),
        ("nb_bits", 4)] ∧
     CMD_RESET = 0 ∧ CMD_TMS_SEQ = 1 ∧ CMD_SCAN_CHAIN = 2 ∧
     CMD_SCAN_CHAIN_FLIP_TMS = 3 ∧ CMD_STOP_SIMU = 4 ∧ CMD_OSCAN1_RAW = 5 ∧
     ((process_commands wState wEnv (SockEvent.frame (wFrame 9))).2.unknownCmd
        = true ↔ 5 < (wFrame 9).cmd)) :=
  ⟨rfl, rfl, vpi_frame_layout_and_codes wState wEnv (wFrame 9) rfl rfl⟩

/-- C6: a SCAN_CHAIN or SCAN_CHAIN_FLIP_TMS frame is rejected with a
response whose whole `buffer_in` is the 0xFF sentinel; the bridge state is
unchanged, the client stays connected, and the simulation continues. -/
theorem scan_chain_rejected (s : VpiState) (env : TopOuts) (c : VpiCmd)
    (hc : s.connected = true) (hw : s.waiting_for_tck_edge = false)
    (hcmd : c.cmd = CMD_SCAN_CHAIN ∨ c.cmd = CMD_SCAN_CHAIN_FLIP_TMS) :
    (process_commands s env (SockEvent.frame c)).2.sent =
      [{ c with buffer_in := List.replicate XFERT_MAX_SIZE 255 }] ∧
    (∀ x ∈ (List.replicate XFERT_MAX_SIZE 255 : List Nat), x = 255) ∧
    (process_commands s env (SockEvent.frame c)).1 = s ∧
    (process_commands s env (SockEvent.frame c)).1.connected = true ∧
    (process_commands s env (SockEvent.frame c)).2.closedClient = false ∧
    (process_commands s env (SockEvent.frame c)).2.cont = true := by
  rcases hcmd with h | h <;>
    refine ⟨?_, fun x hx => List.eq_of_mem_replicate hx, ?_, ?_, ?_, ?_⟩ <;>
    simp [process_commands, hc, hw, h, quietOut, CMD_RESET, CMD_TMS_SEQ,
      CMD_SCAN_CHAIN, CMD_SCAN_CHAIN_FLIP_TMS]

/-- Witness for C6 at a concrete connected state and a SCAN_CHAIN frame. -/
theorem scan_chain_rejected_witness :
    wState.connected = true ∧ (wFrame 2).cmd = CMD_SCAN_CHAIN ∧
    ((process_commands wState wEnv (SockEvent.frame (wFrame 2))).2.sent =
       [{ wFrame 2 with buffer_in := List.replicate XFERT_MAX_SIZE 255 }] ∧
     (∀ x ∈ (List.replicate XFERT_MAX_SIZE 255 : List Nat), x = 255) ∧
     (process_commands wState wEnv (SockEvent.frame (wFrame 2))).1 = wState ∧
     (process_commands wState wEnv (SockEvent.frame (wFrame 2))).1.connected
       = true ∧
     (process_commands wState wEnv (SockEvent.frame (wFrame 2))).2.closedClient
       = false ∧
     (process_commands wState wEnv (SockEvent.frame (wFrame 2))).2.cont
       = true) :=
  ⟨rfl, rfl, scan_chain_rejected wState wEnv (wFrame 2) rfl rfl (Or.inl rfl)⟩

/-- C10: a frame whose command code is outside the recognized set gets a
full response frame whose every `buffer_in` byte is the 0xFF sentinel; the
bridge performs no DUT signal writes, its state (hence the driven
TCKC/TMSC values) is unchanged, and the client stays connected. -/
theorem unknown_cmd_full_response (s : VpiState) (env : TopOuts) (c : VpiCmd)
    (hc : s.connected = true) (hw : s.waiting_for_tck_edge = false)
    (hcmd : 5 < c.cmd) :
    (process_commands s env (SockEvent.frame c)).2.sent =
      [{ c with buffer_in := List.replicate XFERT_MAX_SIZE 255 }] ∧
    (∀ x ∈ (List.replicate XFERT_MAX_SIZE 255 : List Nat), x = 255) ∧
    (List.replicate XFERT_MAX_SIZE 255 : List Nat).length = XFERT_MAX_SIZE ∧
    (process_commands s env (SockEvent.frame c)).2.writes = [] ∧
    (process_commands s env (SockEvent.frame c)).1 = s ∧
    (process_commands s env (SockEvent.frame c)).1.tckc_i = s.tckc_i ∧
    (process_commands s env (SockEvent.frame c)).1.tmsc_i = s.tmsc_i ∧
    (process_commands s env (SockEvent.frame c)).1.connected = true ∧
    (process_commands s env (SockEvent.frame c)).2.closedClient = false ∧
    (process_commands s env (SockEvent.frame c)).2.cont = true := by
  have h0 : ¬ c.cmd = CMD_RESET := by simp [CMD_RESET]; omega
  have h1 : ¬ c.cmd = CMD_TMS_SEQ := by simp [CMD_TMS_SEQ]; omega
  have h23 : ¬ (c.cmd = CMD_SCAN_CHAIN ∨ c.cmd = CMD_SCAN_CHAIN_FLIP_TMS) := by
    simp [CMD_SCAN_CHAIN, CMD_SCAN_CHAIN_FLIP_TMS]; omega
  have h4 : ¬ c.cmd = CMD_STOP_SIMU := by simp [CMD_STOP_SIMU]; omega
  have h5n : ¬ c.cmd = CMD_OSCAN1_RAW := by simp [CMD_OSCAN1_RAW]; omega
  refine ⟨?_, fun x hx => List.eq_of_mem_replicate hx, by simp, ?_, ?_, ?_,
    ?_, ?_, ?_, ?_⟩ <;>
    simp [process_commands, hc, hw, h0, h1, h23, h4, h5n, quietOut]

/-- Witness for C10 at a concrete connected state and a frame with the
unrecognized command code 9. -/
theorem unknown_cmd_full_response_witness :
    wState.connected = true ∧ 5 < (wFrame 9).cmd ∧
    ((process_commands wState wEnv (SockEvent.frame (wFrame 9))).2.sent =
       [{ wFrame 9 with buffer_in := List.replicate XFERT_MAX_SIZE 255 }] ∧
     (∀ x ∈ (List.replicate XFERT_MAX_SIZE 255 : List Nat), x = 255) ∧
     (List.replicate XFERT_MAX_SIZE 255 : List Nat).length = XFERT_MAX_SIZE ∧
     (process_commands wState wEnv (SockEvent.frame (wFrame 9))).2.writes
       = [] ∧
     (process_commands wState wEnv (SockEvent.frame (wFrame 9))).1 = wState ∧
     (process_commands wState wEnv (SockEvent.frame (wFrame 9))).1.tckc_i
       = wState.tckc_i ∧
     (process_commands wState wEnv (SockEvent.frame (wFrame 9))).1.tmsc_i
       = wState.tmsc_i ∧
     (process_commands wState wEnv (SockEvent.frame (wFrame 9))).1.connected
       = true ∧
     (process_commands wState wEnv (SockEvent.frame (wFrame 9))).2.closedClient
       = false ∧
     (process_commands wState wEnv (SockEvent.frame (wFrame 9))).2.cont
       = true) :=
  ⟨rfl, by decide,
   unknown_cmd_full_response wState wEnv (wFrame 9) rfl rfl (by decide)⟩

/-- Counterexample to C2 as stated: at a concrete connected state, the
frame bridge of `src/vpi/jtag_vpi.cpp` handles a RESET frame with no DUT
signal write at all — in particular it never drives `ntrst_i` — and
leaves its state unchanged. -/
theorem vpi_reset_drives_no_ntrst :
    (process_commands wState wEnv (SockEvent.frame (wFrame 0))).2.writes
      = [] ∧
    SigWrite.setNtrst false ∉
      (process_commands wState wEnv (SockEvent.frame (wFrame 0))).2.writes ∧
    SigWrite.setNtrst true ∉
      (process_commands wState wEnv (SockEvent.frame (wFrame 0))).2.writes ∧
    (process_commands wState wEnv (SockEvent.frame (wFrame 0))).1 = wState :=
  ⟨by decide, by decide, by decide, by decide⟩

/-- C2 amended: the frame bridge (`src/vpi/jtag_vpi.cpp`) acknowledges a
RESET frame with a zeroed `buffer_in` and performs no signal writes,
leaving `ntrst_i` untouched; only the legacy byte-protocol bridge
(`src/src/jtag_vpi.cpp`) drives `ntrst_i` low, toggles TCKC for ten
cycles, and releases `ntrst_i` before sending its acknowledge byte. -/
theorem reset_handling_vpi_and_legacy (s : VpiState) (env : TopOuts)
    (c : VpiCmd) (hc : s.connected = true)
    (hw : s.waiting_for_tck_edge = false) (hcmd : c.cmd = CMD_RESET) :
    (process_commands s env (SockEvent.frame c)).2.writes = [] ∧
    (process_commands s env (SockEvent.frame c)).1 = s ∧
    (process_commands s env (SockEvent.frame c)).2.sent =
      [{ c with buffer_in := List.replicate XFERT_MAX_SIZE 0 }] ∧
    legacy_reset_writes.head? = some (SigWrite.setNtrst false) ∧
    legacy_reset_writes.getLast? = some (SigWrite.setNtrst true) ∧
    legacy_reset_writes.length = 22 ∧
    (∀ w ∈ legacy_reset_writes, w ≠ SigWrite.setNtrst false →
       w ≠ SigWrite.setNtrst true →
       (w = SigWrite.setTckc false ∨ w = SigWrite.setTckc true)) ∧
    legacy_reset_sent = [0] := by
  refine ⟨?_, ?_, ?_, by decide, by decide, by decide, by decide, rfl⟩ <;>
    simp [process_commands, hc, hw, hcmd, quietOut, CMD_RESET]

/-- Witness for the amended C2 at a concrete connected state and a RESET
frame. -/
theorem reset_handling_vpi_and_legacy_witness :
    wState.connected = true ∧ (wFrame 0).cmd = CMD_RESET ∧
    ((process_commands wState wEnv (SockEvent.frame (wFrame 0))).2.writes
       = [] ∧
     (process_commands wState wEnv (SockEvent.frame (wFrame 0))).1 = wState ∧
     (process_commands wState wEnv (SockEvent.frame (wFrame 0))).2.sent =
       [{ wFrame 0 with buffer_in := List.replicate XFERT_MAX_SIZE 0 }] ∧
     legacy_reset_writes.head? = some (SigWrite.setNtrst false) ∧
     legacy_reset_writes.getLast? = some (SigWrite.setNtrst true) ∧
     legacy_reset_writes.length = 22 ∧
     (∀ w ∈ legacy_reset_writes, w ≠ SigWrite.setNtrst false →
        w ≠ SigWrite.setNtrst true →
        (w = SigWrite.setTckc false ∨ w = SigWrite.setTckc true)) ∧
     legacy_reset_sent = [0]) :=
  ⟨rfl, rfl, reset_handling_vpi_and_legacy wState wEnv (wFrame 0) rfl rfl rfl⟩

/-- Counterexample to C4 as stated: the activation sequence sent by
`test_idcode.cpp` does not transmit the OAC with on-wire bit order
1,1,0,1 — its first four on-wire bits are 0,0,1,1 — and, separately, the
on-wire order 1,1,0,1 read LSB-first has value 0b1011 = 11, not
0b1101 = 13. -/
theorem oac_claim_order_refuted :
    TestIdcode.send_oac_sequence.take 4 ≠ [true, true, false, true] ∧
    TestIdcode.send_oac_sequence.take 4 = [false, false, true, true] ∧
    lsbFirstValue [true, true, false, true] = 11 ∧ (11 : Nat) ≠ 13 := by
  decide

/-- C4 amended: the `test_cjtag.cpp` harness transmits the 4-bit OAC with
on-wire bit order 1,1,0,1 (LSB-first value 0b1011); the `test_idcode.cpp`
harness transmits the full 12-bit OAC|EC|CP packet whose OAC has on-wire
order 0,0,1,1, whose EC is 0,0,0,1, and whose CP bits are computed as
OAC XOR EC per bit rather than taking arbitrary values. -/
theorem oac_sequences_amended :
    TestCjtag.send_oac_sequence = [true, true, false, true] ∧
    lsbFirstValue TestCjtag.send_oac_sequence = 11 ∧
    TestIdcode.send_oac_sequence =
      [false, false, true, true, false, false, false, true,
       false, false, true, false] ∧
    TestIdcode.send_oac_sequence.length = 12 ∧
    TestIdcode.cp = List.zipWith Bool.xor TestIdcode.oac TestIdcode.ec ∧
    TestIdcode.send_oac_sequence.take 4 = TestIdcode.oac := by
  decide

/-- With no listening socket and no client, every main-loop event leaves
the bridge untouched and the loop keeps running. -/
theorem sim_loop_no_server (s : VpiState) (h1 : s.serverOpen = false)
    (h2 : s.connected = false) : ∀ evs, sim_loop s evs = none := by
  intro evs
  induction evs with
  | nil => rfl
  | cons ev rest ih =>
      have hcc : (check_connection s ev.acceptReady).1 = s := by
        simp [check_connection, h1, h2]
      simp [sim_loop, hcc, step_not_connected s ev.env ev.sock h2, quietOut,
        ih]

/-- An uneventful main-loop occurrence. -/
def failEv : SimEvent :=
  { acceptReady := true, env := { tck_o := false, tmsc_o := false },
    sock := SockEvent.noData }

/-- Counterexample to C5 as stated: with a failing bind at startup,
`init_server` returns false, `jtag_vpi_init` discards that result, the
main loop keeps running through further events instead of aborting, and
the exit code `main` would eventually return is 0, not nonzero. -/
theorem bind_failure_no_abort :
    init_server true false true = false ∧
    (jtag_vpi_init true false true).serverOpen = false ∧
    sim_loop (jtag_vpi_init true false true) [failEv, failEv, failEv]
      = none ∧
    tb_main_return = 0 :=
  ⟨rfl, rfl, rfl, rfl⟩

/-- C5 amended: when socket creation, bind, or listen fails at startup,
`init_server` closes the socket and returns false, but `jtag_vpi_init`
discards the result: no client can ever be accepted, the main loop keeps
running (it never terminates through the VPI path), and the process exit
code on eventual shutdown is 0. -/
theorem init_failure_continues (sOk bOk lOk : Bool)
    (h : init_server sOk bOk lOk = false) :
    (jtag_vpi_init sOk bOk lOk).serverOpen = false ∧
    (∀ ar, (check_connection (jtag_vpi_init sOk bOk lOk) ar).2 = false) ∧
    (∀ evs, sim_loop (jtag_vpi_init sOk bOk lOk) evs = none) ∧
    tb_main_return = 0 := by
  have hso : (jtag_vpi_init sOk bOk lOk).serverOpen = false := by
    simp [jtag_vpi_init, h]
  have hcn : (jtag_vpi_init sOk bOk lOk).connected = false := rfl
  refine ⟨hso, ?_, sim_loop_no_server _ hso hcn, rfl⟩
  intro ar
  simp [check_connection, hso, hcn]

/-- Witness for the amended C5 with a failing bind. -/
theorem init_failure_continues_witness :
    init_server true false true = false ∧
    ((jtag_vpi_init true false true).serverOpen = false ∧
     (∀ ar, (check_connection (jtag_vpi_init true false true) ar).2
        = false) ∧
     (∀ evs, sim_loop (jtag_vpi_init true false true) evs = none) ∧
     tb_main_return = 0) :=
  ⟨rfl, init_failure_continues true false true rfl⟩

/-- C7: a STOP_SIMU frame makes `process_commands` return false, and the
testbench main loop then terminates with process exit code 0. -/
theorem stop_simu_clean_exit (s : VpiState) (env : TopOuts) (ar : Bool)
    (c : VpiCmd) (rest : List SimEvent) (hc : s.connected = true)
    (hw : s.waiting_for_tck_edge = false) (hcmd : c.cmd = CMD_STOP_SIMU) :
    (process_commands s env (SockEvent.frame c)).2.cont = false ∧
    sim_loop s
      ({ acceptReady := ar, env := env, sock := SockEvent.frame c } :: rest)
      = some 0 := by
  have hstep : (process_commands s env (SockEvent.frame c)).2.cont = false := by
    simp [process_commands, hc, hw, hcmd, quietOut, CMD_RESET, CMD_TMS_SEQ,
      CMD_SCAN_CHAIN, CMD_SCAN_CHAIN_FLIP_TMS, CMD_STOP_SIMU]
  have hcc : (check_connection s ar).1 = s := by simp [check_connection, hc]
  refine ⟨hstep, ?_⟩
  simp [sim_loop, hcc, hstep, tb_main_return]

/-- Witness for C7 at a concrete connected state and a STOP_SIMU frame. -/
theorem stop_simu_clean_exit_witness :
    wState.connected = true ∧ (wFrame 4).cmd = CMD_STOP_SIMU ∧
    ((process_commands wState wEnv (SockEvent.frame (wFrame 4))).2.cont
       = false ∧
     sim_loop wState
       ({ acceptReady := true, env := wEnv,
          sock := SockEvent.frame (wFrame 4) } :: [])
       = some 0) :=
  ⟨rfl, rfl, stop_simu_clean_exit wState wEnv true (wFrame 4) [] rfl rfl rfl⟩

/-- C8: on client end-of-stream or a hard `recv` error the bridge closes
only the client socket — `connected` becomes false while the listening
socket stays open — the call returns true so the simulation continues,
and a later ready accept reconnects a client. -/
theorem disconnect_resumes_listening (s : VpiState) (env : TopOuts)
    (hc : s.connected = true) (hw : s.waiting_for_tck_edge = false)
    (hs : s.serverOpen = true) :
    ((process_commands s env SockEvent.recvEOF).1.connected = false ∧
     (process_commands s env SockEvent.recvEOF).2.closedClient = true ∧
     (process_commands s env SockEvent.recvEOF).1.serverOpen = true ∧
     (process_commands s env SockEvent.recvEOF).2.cont = true ∧
     (check_connection (process_commands s env SockEvent.recvEOF).1
        true).1.connected = true ∧
     (check_connection (process_commands s env SockEvent.recvEOF).1
        true).2 = true) ∧
    ((process_commands s env SockEvent.recvErrHard).1.connected = false ∧
     (process_commands s env SockEvent.recvErrHard).2.closedClient = true ∧
     (process_commands s env SockEvent.recvErrHard).1.serverOpen = true ∧
     (process_commands s env SockEvent.recvErrHard).2.cont = true ∧
     (check_connection (process_commands s env SockEvent.recvErrHard).1
        true).1.connected = true ∧
     (check_connection (process_commands s env SockEvent.recvErrHard).1
        true).2 = true) := by
  have h1 : process_commands s env SockEvent.recvEOF =
      ({ s with connected := false },
       { quietOut with closedClient := true, readSock := true }) := by
    simp [process_commands, hc, hw]
  have h2 : process_commands s env SockEvent.recvErrHard =
      ({ s with connected := false },
       { quietOut with closedClient := true, readSock := true }) := by
    simp [process_commands, hc, hw]
  refine ⟨⟨?_, ?_, ?_, ?_, ?_, ?_⟩, ⟨?_, ?_, ?_, ?_, ?_, ?_⟩⟩ <;>
    simp [h1, h2, check_connection, hs, quietOut]

/-- Witness for C8 at a concrete connected state. -/
theorem disconnect_resumes_listening_witness :
    wState.connected = true ∧ wState.serverOpen = true ∧
    (((process_commands wState wEnv SockEvent.recvEOF).1.connected = false ∧
      (process_commands wState wEnv SockEvent.recvEOF).2.closedClient
        = true ∧
      (process_commands wState wEnv SockEvent.recvEOF).1.serverOpen = true ∧
      (process_commands wState wEnv SockEvent.recvEOF).2.cont = true ∧
      (check_connection (process_commands wState wEnv SockEvent.recvEOF).1
         true).1.connected = true ∧
      (check_connection (process_commands wState wEnv SockEvent.recvEOF).1
         true).2 = true) ∧
     ((process_commands wState wEnv SockEvent.recvErrHard).1.connected
        = false ∧
      (process_commands wState wEnv SockEvent.recvErrHard).2.closedClient
        = true ∧
      (process_commands wState wEnv SockEvent.recvErrHard).1.serverOpen
        = true ∧
      (process_commands wState wEnv SockEvent.recvErrHard).2.cont = true ∧
      (check_connection
         (process_commands wState wEnv SockEvent.recvErrHard).1
         true).1.connected = true ∧
      (check_connection
         (process_commands wState wEnv SockEvent.recvErrHard).1
         true).2 = true)) :=
  ⟨rfl, rfl, disconnect_resumes_listening wState wEnv rfl rfl rfl⟩

/-- Writing index 0 of a nonempty list is read back at index 0. -/
theorem getD_set_head (l : List Nat) (v : Nat) (h : l ≠ []) :
    (l.set 0 v).getD 0 0 = v := by
  cases l with
  | nil => exact absurd rfl h
  | cons a t => rfl

/-- Evaluation of one call on an OSCAN1_RAW frame. -/
theorem step_frame_oscan1 (s : VpiState) (env : TopOuts) (c : VpiCmd)
    (hc : s.connected = true) (hw : s.waiting_for_tck_edge = false)
    (hcmd : c.cmd = CMD_OSCAN1_RAW) :
    process_commands s env (SockEvent.frame c) =
      ({ s with tckc_i := (c.buffer_out.getD 0 0).testBit 0,
                tmsc_i := (c.buffer_out.getD 0 0).testBit 1,
                tck_initial_state := env.tck_o,
                waiting_for_tck_edge := true, wait_counter := 0,
                pending_response := c },
       { quietOut with
           writes := [SigWrite.setTckc ((c.buffer_out.getD 0 0).testBit 0),
                      SigWrite.setTmsc ((c.buffer_out.getD 0 0).testBit 1)],
           readSock := true }) := by
  simp [process_commands, hc, hw, hcmd, CMD_RESET, CMD_TMS_SEQ,
    CMD_SCAN_CHAIN, CMD_SCAN_CHAIN_FLIP_TMS, CMD_STOP_SIMU, CMD_OSCAN1_RAW,
    List.getD]

/-- C1: the bridge handles an OSCAN1_RAW frame by applying bit 0 of
`buffer_out[0]` to TCKC and bit 1 to TMSC, sending nothing yet and saving
the frame as the pending response; any later waiting call that does emit
a response sends exactly one frame — the pending frame with
`buffer_in[0]` replaced by the device's `tmsc_o` value at that call. -/
theorem oscan1_raw_signal_and_response (s : VpiState) (env : TopOuts)
    (c : VpiCmd) (hc : s.connected = true)
    (hw : s.waiting_for_tck_edge = false) (hcmd : c.cmd = CMD_OSCAN1_RAW) :
    (process_commands s env (SockEvent.frame c)).1.tckc_i
      = (c.buffer_out.getD 0 0).testBit 0 ∧
    (process_commands s env (SockEvent.frame c)).1.tmsc_i
      = (c.buffer_out.getD 0 0).testBit 1 ∧
    (process_commands s env (SockEvent.frame c)).2.writes
      = [SigWrite.setTckc ((c.buffer_out.getD 0 0).testBit 0),
         SigWrite.setTmsc ((c.buffer_out.getD 0 0).testBit 1)] ∧
    (process_commands s env (SockEvent.frame c)).2.sent = [] ∧
    (process_commands s env (SockEvent.frame c)).1.waiting_for_tck_edge
      = true ∧
    (process_commands s env (SockEvent.frame c)).1.pending_response = c ∧
    (process_commands s env (SockEvent.frame c)).1.tck_initial_state
      = env.tck_o ∧
    (process_commands s env (SockEvent.frame c)).1.wait_counter = 0 ∧
    (∀ t env2 e2, t.connected = true → t.waiting_for_tck_edge = true →
       (process_commands t env2 e2).2.sent ≠ [] →
       (process_commands t env2 e2).2.sent = [respOf t env2]) ∧
    (∀ t env2, t.pending_response.buffer_in ≠ [] →
       (respOf t env2).buffer_in.getD 0 0 = byteOf env2.tmsc_o) := by
  have hstep := step_frame_oscan1 s env c hc hw hcmd
  refine ⟨by rw [hstep], by rw [hstep], by rw [hstep], by rw [hstep] ; rfl,
    by rw [hstep], by rw [hstep], by rw [hstep], by rw [hstep], ?_, ?_⟩
  · intro t env2 e2 htc htw hne
    by_cases hedge : env2.tck_o = t.tck_initial_state
    · by_cases hbig : MAX_WAIT_TICKS ≤ t.wait_counter + 1
      · rw [step_waiting_timeout t env2 e2 htc htw hedge hbig]
      · exact absurd
          (by rw [step_waiting_still t env2 e2 htc htw hedge (by omega)] ; rfl)
          hne
    · rw [step_waiting_edge t env2 e2 htc htw hedge]
  · intro t env2 hne
    exact getD_set_head _ _ hne

/-- A concrete OSCAN1_RAW frame with payload byte 3 (TCKC=1, TMSC=1). -/
def wOscanFrame : VpiCmd :=
  { emptyCmd with
      cmd := 5,
      buffer_out := (List.replicate XFERT_MAX_SIZE 0).set 0 3 }

/-- Witness for C1 at a concrete connected state and a concrete
OSCAN1_RAW frame whose payload byte is 3. -/
theorem oscan1_raw_signal_and_response_witness :
    wState.connected = true ∧ wOscanFrame.cmd = CMD_OSCAN1_RAW ∧
    ((process_commands wState wEnv (SockEvent.frame wOscanFrame)).1.tckc_i
       = (wOscanFrame.buffer_out.getD 0 0).testBit 0 ∧
     (process_commands wState wEnv (SockEvent.frame wOscanFrame)).1.tmsc_i
       = (wOscanFrame.buffer_out.getD 0 0).testBit 1 ∧
     (process_commands wState wEnv (SockEvent.frame wOscanFrame)).2.writes
       = [SigWrite.setTckc ((wOscanFrame.buffer_out.getD 0 0).testBit 0),
          SigWrite.setTmsc ((wOscanFrame.buffer_out.getD 0 0).testBit 1)] ∧
     (process_commands wState wEnv (SockEvent.frame wOscanFrame)).2.sent
       = [] ∧
     (process_commands wState wEnv
        (SockEvent.frame wOscanFrame)).1.waiting_for_tck_edge = true ∧
     (process_commands wState wEnv
        (SockEvent.frame wOscanFrame)).1.pending_response = wOscanFrame ∧
     (process_commands wState wEnv
        (SockEvent.frame wOscanFrame)).1.tck_initial_state = wEnv.tck_o ∧
     (process_commands wState wEnv
        (SockEvent.frame wOscanFrame)).1.wait_counter = 0 ∧
     (∀ t env2 e2, t.connected = true → t.waiting_for_tck_edge = true →
        (process_commands t env2 e2).2.sent ≠ [] →
        (process_commands t env2 e2).2.sent = [respOf t env2]) ∧
     (∀ t env2, t.pending_response.buffer_in ≠ [] →
        (respOf t env2).buffer_in.getD 0 0 = byteOf env2.tmsc_o)) :=
  ⟨rfl, rfl,
   oscan1_raw_signal_and_response wState wEnv wOscanFrame rfl rfl rfl⟩

/-- The first waiting call of a run acts on the initial state. -/
theorem stepAt_zero (s : VpiState) (envs : Nat → TopOuts) :
    stepAt s envs 0 = process_commands s (envs 0) SockEvent.noData := rfl

/-- A waiting run shifted by one call. -/
theorem waitRun_shift (s : VpiState) (envs : Nat → TopOuts) :
    ∀ n, waitRun s envs (n + 1) =
      waitRun ((process_commands s (envs 0) SockEvent.noData).1)
        (fun i => envs (i + 1)) n := by
  intro n
  induction n with
  | zero => rfl
  | succ k ih =>
      show (process_commands (waitRun s envs (k + 1)) (envs (k + 1))
        SockEvent.noData).1 = _
      rw [ih]
      rfl

/-- Call `k + 1` of a waiting run is call `k` of the shifted run. -/
theorem stepAt_shift (s : VpiState) (envs : Nat → TopOuts) (k : Nat) :
    stepAt s envs (k + 1) =
      stepAt ((process_commands s (envs 0) SockEvent.noData).1)
        (fun i => envs (i + 1)) k := by
  unfold stepAt
  rw [waitRun_shift]

/-- While waiting with `n` ticks left before the limit, some call
`k < n` sends exactly the pending response (updated with the current
`tmsc_o`) and clears the waiting flag; every earlier call sends nothing,
sees no `tck_o` edge, and never reads the socket. -/
theorem wait_completes : ∀ (n : Nat) (s : VpiState) (envs : Nat → TopOuts),
    s.connected = true → s.waiting_for_tck_edge = true →
    s.wait_counter + n = MAX_WAIT_TICKS → 0 < n →
    ∃ k, k < n ∧
      (stepAt s envs k).2.sent = [respOf s (envs k)] ∧
      (stepAt s envs k).1.waiting_for_tck_edge = false ∧
      ((envs k).tck_o ≠ s.tck_initial_state ∨
        s.wait_counter + k + 1 = MAX_WAIT_TICKS) ∧
      (∀ j, j < k → (stepAt s envs j).2.sent = [] ∧
        (envs j).tck_o = s.tck_initial_state) ∧
      (∀ j, j ≤ k → (stepAt s envs j).2.readSock = false) := by
  intro n
  induction n with
  | zero => intro s envs _ _ _ hpos; exact absurd hpos (by omega)
  | succ m ih =>
      intro s envs hc hw hcnt _
      by_cases hedge : (envs 0).tck_o = s.tck_initial_state
      · by_cases hbig : MAX_WAIT_TICKS ≤ s.wait_counter + 1
        · refine ⟨0, by omega, ?_, ?_, Or.inr (by omega), ?_, ?_⟩
          · simp [stepAt_zero,
              step_waiting_timeout s (envs 0) SockEvent.noData hc hw hedge hbig]
          · simp [stepAt_zero,
              step_waiting_timeout s (envs 0) SockEvent.noData hc hw hedge hbig]
          · intro j hj; exact absurd hj (by omega)
          · intro j hj
            have hj0 : j = 0 := by omega
            subst hj0
            simp [stepAt_zero, quietOut,
              step_waiting_timeout s (envs 0) SockEvent.noData hc hw hedge hbig]
        · have hm : 0 < m := by omega
          have hstep := step_waiting_still s (envs 0) SockEvent.noData hc hw
            hedge (by omega)
          have hshift : ∀ k, stepAt s envs (k + 1) =
              stepAt { s with wait_counter := s.wait_counter + 1 }
                (fun i => envs (i + 1)) k := by
            intro k
            rw [stepAt_shift, hstep]
          have hcnt1 : ({ s with wait_counter := s.wait_counter + 1 } :
              VpiState).wait_counter + m = MAX_WAIT_TICKS := by
            show s.wait_counter + 1 + m = MAX_WAIT_TICKS
            omega
          obtain ⟨k, hk, hsent, hwaitr, hcond, hbefore, hread⟩ :=
            ih { s with wait_counter := s.wait_counter + 1 }
              (fun i => envs (i + 1)) hc hw hcnt1 hm
          refine ⟨k + 1, by omega, ?_, ?_, ?_, ?_, ?_⟩
          · rw [hshift k]; exact hsent
          · rw [hshift k]; exact hwaitr
          · rcases hcond with h | h
            · exact Or.inl h
            · refine Or.inr ?_
              have h' : s.wait_counter + 1 + k + 1 = MAX_WAIT_TICKS := h
              omega
          · intro j hj
            cases j with
            | zero =>
                refine ⟨?_, hedge⟩
                rw [stepAt_zero, hstep]
                rfl
            | succ j' =>
                have hj' : j' < k := by omega
                obtain ⟨ha, hb⟩ := hbefore j' hj'
                refine ⟨?_, hb⟩
                rw [hshift j']; exact ha
          · intro j hj
            cases j with
            | zero =>
                rw [stepAt_zero, hstep]
                rfl
            | succ j' =>
                rw [hshift j']
                exact hread j' (by omega)
      · refine ⟨0, by omega, ?_, ?_, Or.inl hedge, ?_, ?_⟩
        · simp [stepAt_zero,
            step_waiting_edge s (envs 0) SockEvent.noData hc hw hedge]
        · simp [stepAt_zero,
            step_waiting_edge s (envs 0) SockEvent.noData hc hw hedge]
        · intro j hj; exact absurd hj (by omega)
        · intro j hj
          have hj0 : j = 0 := by omega
          subst hj0
          simp [stepAt_zero, quietOut,
            step_waiting_edge s (envs 0) SockEvent.noData hc hw hedge]

/-- C9: after an accepted OSCAN1_RAW command (waiting state entered with
`wait_counter = 0`), exactly one response is sent within MAX_WAIT_TICKS
polling calls: at the sending call either `tck_o` differs from the
captured value or the 100-tick limit was reached; earlier calls send
nothing, see no edge, and never read the socket — and while waiting, a
call's outcome does not depend on what the socket holds. -/
theorem oscan1_raw_single_response (s : VpiState) (envs : Nat → TopOuts)
    (hc : s.connected = true) (hw : s.waiting_for_tck_edge = true)
    (h0 : s.wait_counter = 0) :
    (∃ k, k < MAX_WAIT_TICKS ∧
       (stepAt s envs k).2.sent = [respOf s (envs k)] ∧
       (stepAt s envs k).1.waiting_for_tck_edge = false ∧
       ((envs k).tck_o ≠ s.tck_initial_state ∨ k + 1 = MAX_WAIT_TICKS) ∧
       (∀ j, j < k → (stepAt s envs j).2.sent = [] ∧
         (envs j).tck_o = s.tck_initial_state) ∧
       (∀ j, j ≤ k → (stepAt s envs j).2.readSock = false)) ∧
    (∀ t env e1 e2, t.waiting_for_tck_edge = true →
       process_commands t env e1 = process_commands t env e2) := by
  constructor
  · obtain ⟨k, hk, h1, h2, h3, h4, h5⟩ :=
      wait_completes MAX_WAIT_TICKS s envs hc hw (by omega) (by decide)
    refine ⟨k, hk, h1, h2, ?_, h4, h5⟩
    rcases h3 with h | h
    · exact Or.inl h
    · exact Or.inr (by omega)
  · intro t env e1 e2 htw
    exact step_waiting_indep t env e1 e2 htw

/-- A concrete waiting state: response pending, counter fresh. -/
def wWaitState : VpiState :=
  { serverOpen := true, connected := true, waiting_for_tck_edge := true,
    tck_initial_state := false, pending_response := emptyCmd,
    wait_counter := 0, tckc_i := true, tmsc_i := true }

/-- Constant DUT outputs presenting an immediate `tck_o` edge. -/
def wEnvs : Nat → TopOuts := fun _ => { tck_o := true, tmsc_o := true }

/-- Witness for C9 at a concrete waiting state with an immediate edge. -/
theorem oscan1_raw_single_response_witness :
    wWaitState.connected = true ∧ wWaitState.waiting_for_tck_edge = true ∧
    wWaitState.wait_counter = 0 ∧
    ((∃ k, k < MAX_WAIT_TICKS ∧
        (stepAt wWaitState wEnvs k).2.sent = [respOf wWaitState (wEnvs k)] ∧
        (stepAt wWaitState wEnvs k).1.waiting_for_tck_edge = false ∧
        ((wEnvs k).tck_o ≠ wWaitState.tck_initial_state ∨
          k + 1 = MAX_WAIT_TICKS) ∧
        (∀ j, j < k → (stepAt wWaitState wEnvs j).2.sent = [] ∧
          (wEnvs j).tck_o = wWaitState.tck_initial_state) ∧
        (∀ j, j ≤ k → (stepAt wWaitState wEnvs j).2.readSock = false)) ∧
     (∀ t env e1 e2, t.waiting_for_tck_edge = true →
        process_commands t env e1 = process_commands t env e2)) :=
  ⟨rfl, rfl, rfl, oscan1_raw_single_response wWaitState wEnvs rfl rfl rfl⟩
